import Mathlib

/-! ## Verification of the Mission Control task and activity service

Shallow embedding of the handlers in `src/scripts/api_server.py` of the
`11data/vps-image` repository: the Kanban task CRUD handlers, the
activity-log handlers, the bearer-token check and the two SSE stream
generators. The relational store is modelled as a Lean list of records;
each SQL statement is translated to the corresponding filter, sort, take,
map or append on that list. Timestamps are natural numbers where the code
compares them (`created_at`) and opaque strings where it only stores them
(`updated_at`, `completed_at`). UUID parsing is an external collaborator
and is passed in as a function `String → Option Nat`.
-/

namespace MissionControl

/-- A row of the `tasks` table, as selected and serialized by the handlers. -/
structure Task where
  id : Nat
  title : String
  descr : Option String
  status : String
  priority : Int
  agent_id : Option String
  created_at : Nat
  updated_at : String
  completed_at : Option String
deriving DecidableEq, Repr

/-- An opaque structured payload (a JSON object), modelled as an ordered
key-value document, stored and compared verbatim. -/
structure JsonDoc where
  entries : List (String × String)
deriving DecidableEq, Repr

/-- A row of the `activity_events` table. -/
structure ActivityEvent where
  id : Nat
  event_type : String
  source : Option String
  data : Option JsonDoc
  created_at : Nat
deriving DecidableEq, Repr

/-- An `HTTPException` raised by a handler: status code and detail message. -/
structure HTTPError where
  status : Nat
  detail : String
deriving DecidableEq, Repr

/-- Python truthiness of an optional string: `None` and the empty string
are falsy. -/
def truthy : Option String → Bool
  | none => false
  | some s => decide (s ≠ "")

/-- The `str.partition(" ")` split used by `verify_token`: the characters
before the first space, and the characters after it (all characters and an
empty remainder when no space occurs). -/
def partitionChars : List Char → List Char × List Char
  | [] => ([], [])
  | c :: cs =>
    if c = ' ' then ([], cs)
    else
      let p := partitionChars cs
      (c :: p.1, p.2)

/-- The partition of the authorization header at the first space, dropping
the separator component: returns the scheme part and the token part. -/
def partitionSpace (s : String) : String × String :=
  let p := partitionChars s.data
  (String.mk p.1, String.mk p.2)

/-- The `scheme.lower()` call of `verify_token`, character by character. -/
def lower_string (s : String) : String :=
  String.mk (s.data.map Char.toLower)

/-- Embedding of `verify_token` (src/scripts/api_server.py:124-137): skip
when no token is configured, 401 on a missing or empty header or a
non-bearer scheme, 403 on a token mismatch. -/
def verify_token (TOKEN : String) (authorization : Option String) :
    Except HTTPError Unit :=
  if TOKEN = "" then Except.ok ()
  else
    match authorization with
    | none => Except.error ⟨401, "Missing authorization header"⟩
    | some a =>
      if a = "" then Except.error ⟨401, "Missing authorization header"⟩
      else
        let p := partitionSpace a
        if lower_string p.1 ≠ "bearer" then
          Except.error ⟨401, "Invalid authorization scheme"⟩
        else if p.2 ≠ TOKEN then Except.error ⟨403, "Invalid token"⟩
        else Except.ok ()

/-- The `ORDER BY priority DESC, created_at DESC` ordering on tasks:
`a` may precede `b`. -/
def taskLe (a b : Task) : Prop :=
  b.priority < a.priority ∨ (a.priority = b.priority ∧ b.created_at ≤ a.created_at)

instance : DecidableRel taskLe := fun a b => by unfold taskLe; infer_instance

instance : IsTotal Task taskLe := ⟨fun a b => by unfold taskLe; omega⟩

instance : IsTrans Task taskLe := ⟨fun a b c hab hbc => by
  unfold taskLe at *; omega⟩

/-- The `ORDER BY created_at DESC` ordering on activity events. -/
def eventLe (a b : ActivityEvent) : Prop :=
  b.created_at ≤ a.created_at

instance : DecidableRel eventLe := fun _ _ => Nat.decLe _ _

instance : IsTotal ActivityEvent eventLe := ⟨fun _ _ => Nat.le_total _ _⟩

instance : IsTrans ActivityEvent eventLe :=
  ⟨fun _ _ _ hab hbc => Nat.le_trans hbc hab⟩

/-- Rows of `tasks` as returned by `ORDER BY priority DESC, created_at DESC`. -/
def sortTasks (ts : List Task) : List Task :=
  List.insertionSort taskLe ts

/-- Rows of `activity_events` as returned by `ORDER BY created_at DESC`. -/
def sortEventsDesc (es : List ActivityEvent) : List ActivityEvent :=
  List.insertionSort eventLe es

/-- Embedding of `get_kanban_tasks` (src/scripts/api_server.py:160-196):
filter by status when truthy, else by agent, else none; always ordered by
priority descending then created_at descending. -/
def get_kanban_tasks (status agent_id : Option String) (tasks : List Task) :
    List Task :=
  if truthy status then
    sortTasks (tasks.filter fun t => decide (some t.status = status))
  else if truthy agent_id then
    sortTasks (tasks.filter fun t => decide (t.agent_id = agent_id))
  else
    sortTasks tasks

/-- Embedding of `get_task` (src/scripts/api_server.py:230-255). The second
component counts the store queries issued: parsing happens before the
`SELECT`, so a malformed id issues none. -/
def get_task (parseUUID : String → Option Nat) (tasks : List Task)
    (task_id : String) : Except HTTPError Task × Nat :=
  match parseUUID task_id with
  | none => (Except.error ⟨400, "Invalid task ID"⟩, 0)
  | some uid =>
    match tasks.find? fun t => decide (t.id = uid) with
    | none => (Except.error ⟨404, "Task not found"⟩, 1)
    | some t => (Except.ok t, 1)

/-- The body of a `PUT /kanban/tasks/{id}` request (`TaskUpdate` model):
every field optional. -/
structure TaskUpdate where
  title : Option String
  descr : Option String
  status : Option String
  priority : Option Int
  agent_id : Option String
  completed_at : Option String
deriving DecidableEq, Repr

/-- A value bound as a query parameter in `update_task`. -/
inductive Value where
  | vStr : String → Value
  | vInt : Int → Value
  | vTime : String → Value
  | vId : Nat → Value
deriving DecidableEq, Repr

/-- Embedding of the `updates` dict built by `update_task`
(src/scripts/api_server.py:265-277), in insertion order: each field is
added when present in the request, and `completed_at` is stamped with the
current time right after `status` when the request sets status to done
without a truthy explicit `completed_at`. -/
def build_updates (task : TaskUpdate) (now : String) : List (String × Value) :=
  (match task.title with
    | some v => [("title", Value.vStr v)]
    | none => []) ++
  (match task.descr with
    | some v => [("description", Value.vStr v)]
    | none => []) ++
  (match task.status with
    | some v =>
      ("status", Value.vStr v) ::
        (if v = "done" && !truthy task.completed_at then
          [("completed_at", Value.vTime now)]
        else [])
    | none => []) ++
  (match task.priority with
    | some v => [("priority", Value.vInt v)]
    | none => []) ++
  (match task.agent_id with
    | some v => [("agent_id", Value.vStr v)]
    | none => [])

/-- The full update set: the field updates followed by the unconditional
`updated_at` stamp (src/scripts/api_server.py:282). -/
def all_updates (task : TaskUpdate) (now : String) : List (String × Value) :=
  build_updates task now ++ [("updated_at", Value.vTime now)]

/-- One `SET` assignment applied to a task row: the SQL semantics of
`column = value` for each of the seven columns the code can name. -/
def apply_column (t : Task) : String × Value → Task
  | ("title", Value.vStr v) => { t with title := v }
  | ("description", Value.vStr v) => { t with descr := some v }
  | ("status", Value.vStr v) => { t with status := v }
  | ("priority", Value.vInt v) => { t with priority := v }
  | ("agent_id", Value.vStr v) => { t with agent_id := some v }
  | ("completed_at", Value.vTime v) => { t with completed_at := some v }
  | ("updated_at", Value.vTime v) => { t with updated_at := v }
  | _ => t

/-- All `SET` assignments of one `UPDATE` statement, applied left to right. -/
def apply_updates (t : Task) (us : List (String × Value)) : Task :=
  us.foldl apply_column t

/-- The `f"\x7bk\x7d = $\x7bi+2\x7d"` entries of the dynamically built
`SET` clause (src/scripts/api_server.py:285), with `n` the placeholder
index of the first entry. -/
def clause_entries : Nat → List (String × Value) → List String
  | _, [] => []
  | n, (k, _) :: rest => (k ++ " = $" ++ toString n) :: clause_entries (n + 1) rest

/-- The same clause entries computed from column names alone. -/
def clause_entries_cols : Nat → List String → List String
  | _, [] => []
  | n, k :: rest => (k ++ " = $" ++ toString n) :: clause_entries_cols (n + 1) rest

/-- The statement text and bound values issued by `update_task`
(src/scripts/api_server.py:285-293): the task id is `$1` and every update
value is a further bound parameter. -/
def update_statement (us : List (String × Value)) (uid : Nat) :
    String × List Value :=
  ("UPDATE tasks SET " ++ String.intercalate ", " (clause_entries 2 us) ++
      " WHERE id = $1",
    Value.vId uid :: us.map Prod.snd)

/-- The statement text determined by column names alone. -/
def text_of_columns (cols : List String) : String :=
  "UPDATE tasks SET " ++ String.intercalate ", " (clause_entries_cols 2 cols) ++
    " WHERE id = $1"

/-- The fixed set of column names `update_task` can ever write. -/
def updatable_columns : List String :=
  ["title", "description", "status", "completed_at", "priority", "agent_id",
    "updated_at"]

/-- Embedding of `update_task` (src/scripts/api_server.py:258-312): reject
an empty update set, reject a malformed id before touching the store, apply
the update to every row with the given id, then re-select the row and
return 404 when it does not exist. The second component is the store after
the request. -/
def update_task (parseUUID : String → Option Nat) (task : TaskUpdate)
    (task_id : String) (now : String) (tasks : List Task) :
    Except HTTPError Task × List Task :=
  let updates := build_updates task now
  if updates.isEmpty then (Except.error ⟨400, "No fields to update"⟩, tasks)
  else
    match parseUUID task_id with
    | none => (Except.error ⟨400, "Invalid task ID"⟩, tasks)
    | some uid =>
      let tasks' := tasks.map fun t =>
        if t.id = uid then apply_updates t (all_updates task now) else t
      match tasks'.find? fun t => decide (t.id = uid) with
      | none => (Except.error ⟨404, "Task not found"⟩, tasks')
      | some t => (Except.ok t, tasks')

/-- Python truthiness of the optional `data` payload: `None` and the empty
document are falsy. -/
def dict_truthy : Option JsonDoc → Bool
  | none => false
  | some d => !d.entries.isEmpty

/-- The value stored for the `data` column by `log_activity`
(src/scripts/api_server.py:383): `json.dumps(data) if data else None`,
with serialization opaque (byte-for-byte). -/
def stored_data (data : Option JsonDoc) : Option JsonDoc :=
  if dict_truthy data then data else none

/-- Embedding of `log_activity` (src/scripts/api_server.py:368-389):
append one row to `activity_events`. -/
def log_activity (event_type : String) (data : Option JsonDoc)
    (source : Option String) (event_id : Nat) (now : Nat)
    (events : List ActivityEvent) : List ActivityEvent :=
  events ++ [⟨event_id, event_type, source, stored_data data, now⟩]

/-- Embedding of `get_activity` (src/scripts/api_server.py:337-365):
newest-first, limited, optionally filtered by exact event type. -/
def get_activity (limit : Nat) (event_type : Option String)
    (events : List ActivityEvent) : List ActivityEvent :=
  if truthy event_type then
    (sortEventsDesc (events.filter fun e =>
      decide (some e.event_type = event_type))).take limit
  else
    (sortEventsDesc events).take limit

/-- The rows fetched by one tick of `activity_event_generator`
(src/scripts/api_server.py:430-434): the newest 100 events when no
watermark is set, else all events strictly newer than the watermark,
newest first. -/
def fetch_activity_tick (events : List ActivityEvent)
    (last_event_id : Option Nat) : List ActivityEvent :=
  match last_event_id with
  | none => (sortEventsDesc events).take 100
  | some w => sortEventsDesc (events.filter fun e => decide (w < e.created_at))

/-- One tick of `activity_event_generator`
(src/scripts/api_server.py:428-452): returns the frame emitted this tick
(the fetched rows reversed, oldest first) and the watermark after the
tick. The loop body assigns `last_event_id` only when it is still falsy,
so it is taken from the first (newest) row of the first nonempty fetch and
is otherwise left unchanged. -/
def activity_tick (events : List ActivityEvent) (last_event_id : Option Nat) :
    List ActivityEvent × Option Nat :=
  let rows := fetch_activity_tick events last_event_id
  let lastAfter := match last_event_id with
    | some w => some w
    | none => rows.head?.map ActivityEvent.created_at
  (rows.reverse, lastAfter)

/-- A run of `activity_event_generator` over successive store snapshots,
one snapshot per tick: the list of emitted frames. -/
def activity_stream : List (List ActivityEvent) → Option Nat →
    List (List ActivityEvent)
  | [], _ => []
  | events :: rest, last_event_id =>
    let step := activity_tick events last_event_id
    step.1 :: activity_stream rest step.2

/-- A handler gated by the auth dependency, as every route except
`/health` is: the task list endpoint with its `Depends(verify_token)`
check applied first (src/scripts/api_server.py:160-165). -/
def get_kanban (TOKEN : String) (authorization : Option String)
    (status agent_id : Option String) (tasks : List Task) :
    Except HTTPError (List Task) :=
  match verify_token TOKEN authorization with
  | Except.error e => Except.error e
  | Except.ok _ => Except.ok (get_kanban_tasks status agent_id tasks)

/-! ## Concrete fixtures -/

/-- Event E1 at t = 1. -/
def eA1 : ActivityEvent := ⟨1, "evt1", none, none, 1⟩

/-- Event E2 at t = 2. -/
def eA2 : ActivityEvent := ⟨2, "evt2", none, none, 2⟩

/-- Event E3 at t = 3. -/
def eA3 : ActivityEvent := ⟨3, "evt3", none, none, 3⟩

/-- Event E4 at t = 4, inserted after the first tick. -/
def eA4 : ActivityEvent := ⟨4, "evt4", none, none, 4⟩

/-- The activity table at connect time: E1, E2, E3. -/
def storeE3 : List ActivityEvent := [eA1, eA2, eA3]

/-- The activity table after E4 is inserted. -/
def storeE4 : List ActivityEvent := [eA1, eA2, eA3, eA4]

/-- A task not yet done, with no completion timestamp. -/
def task_todo : Task :=
  ⟨1, "Fix bug", none, "todo", 5, none, 10, "t10", none⟩

/-- A task already done, completed at an earlier time. -/
def task_done_old : Task :=
  ⟨2, "Old task", none, "done", 1, none, 5, "t5", some "2024-01-01T00:00:00"⟩

/-- A concrete UUID parse collaborator for the fixtures. -/
def parse_fixed : String → Option Nat := fun s =>
  if s = "t1" then some 1 else if s = "t2" then some 2 else none

/-- An update that sets status to done and explicitly supplies
`completed_at`. -/
def req_done_explicit : TaskUpdate :=
  ⟨none, none, some "done", none, none, some "2020-01-01T00:00:00"⟩

/-- An update that carries status done with no explicit `completed_at`. -/
def req_done_again : TaskUpdate :=
  ⟨none, none, some "done", none, none, none⟩

/-! ## Theorems -/

/-- Claim C1 (code bug): the spec says each tick advances the watermark to
the newest emitted timestamp, so an event inserted after the initial batch
is emitted in exactly one later frame. In the code `last_event_id` is
assigned only under `if not last_event_id:`, so the watermark is frozen at
the first frame and E4 (t = 4, inserted after the first tick) is re-emitted
in every subsequent frame: with ticks over the snapshots E1-E3, E1-E4,
E1-E4 the frames are [E1, E2, E3], [E4], [E4], and E4 occurs twice in the
frames after the first. -/
theorem C1_watermark_never_advances :
    activity_stream [storeE3, storeE4, storeE4] none =
      [[eA1, eA2, eA3], [eA4], [eA4]] ∧
    ((activity_stream [storeE3, storeE4, storeE4] none).drop 1).flatten.count
      eA4 = 2 := by
  constructor <;> decide

/-- Claim C4: with no watermark set, a tick fetches the newest 100 events
and emits them oldest first: every emitted event is in the store, the
frame is ascending in `created_at`, it has min 100 (store size) events,
every event left out is no newer than every emitted one, and on the store
E1 (t=1), E2 (t=2), E3 (t=3) the frame is exactly E1, E2, E3 with the
watermark set to t = 3. -/
theorem C4_first_tick_most_recent_oldest_first :
    (∀ events : List ActivityEvent,
      (∀ e ∈ (activity_tick events none).1, e ∈ events) ∧
      List.Pairwise (fun a b => a.created_at ≤ b.created_at)
        (activity_tick events none).1 ∧
      (activity_tick events none).1.length = min 100 events.length ∧
      (∀ e ∈ events, e ∉ (activity_tick events none).1 →
        ∀ f ∈ (activity_tick events none).1, e.created_at ≤ f.created_at)) ∧
    activity_tick storeE3 none = ([eA1, eA2, eA3], some 3) := by
  constructor
  · intro events
    have hperm : List.Perm (sortEventsDesc events) events :=
      List.perm_insertionSort eventLe events
    have hsorted : List.Pairwise eventLe (sortEventsDesc events) :=
      List.sorted_insertionSort eventLe events
    have hframe : (activity_tick events none).1 =
        ((sortEventsDesc events).take 100).reverse := rfl
    refine ⟨?_, ?_, ?_, ?_⟩
    · intro e he
      rw [hframe, List.mem_reverse] at he
      exact hperm.subset (List.mem_of_mem_take he)
    · rw [hframe, List.pairwise_reverse]
      exact (List.Pairwise.sublist (List.take_sublist 100 _) hsorted).imp
        fun h => h
    · rw [hframe, List.length_reverse, List.length_take, hperm.length_eq]
    · intro e hee hnot f hf
      rw [hframe, List.mem_reverse] at hf hnot
      have hsplit : (sortEventsDesc events).take 100 ++
          (sortEventsDesc events).drop 100 = sortEventsDesc events :=
        List.take_append_drop 100 _
      have hed : e ∈ (sortEventsDesc events).drop 100 := by
        have : e ∈ sortEventsDesc events := hperm.mem_iff.mpr hee
        rw [← hsplit, List.mem_append] at this
        exact this.resolve_left hnot
      have hcross := (List.pairwise_append.mp (hsplit ▸ hsorted)).2.2
      exact hcross f hf e hed
  · decide

/-- Claim C4 witness: the general part applied to the concrete three-event
store, together with the concrete first frame. -/
theorem C4_witness :
    eA1 ∈ storeE3 ∧ activity_tick storeE3 none = ([eA1, eA2, eA3], some 3) :=
  ⟨(C4_first_tick_most_recent_oldest_first.1 storeE3).1 eA1 (by decide),
    C4_first_tick_most_recent_oldest_first.2⟩

/-- Claim C5: a malformed id fails with 400 before any store query is
issued, a well-formed id with no matching row fails with 404 after one
query, and the two errors are distinct. -/
theorem C5_get_task_error_split (parseUUID : String → Option Nat)
    (tasks : List Task) (task_id : String) :
    (parseUUID task_id = none →
      get_task parseUUID tasks task_id =
        (Except.error ⟨400, "Invalid task ID"⟩, 0)) ∧
    (∀ uid, parseUUID task_id = some uid → (∀ t ∈ tasks, t.id ≠ uid) →
      get_task parseUUID tasks task_id =
        (Except.error ⟨404, "Task not found"⟩, 1)) ∧
    (⟨400, "Invalid task ID"⟩ : HTTPError) ≠ ⟨404, "Task not found"⟩ := by
  refine ⟨?_, ?_, by decide⟩
  · intro h
    simp [get_task, h]
  · intro uid h hnone
    have hfind : tasks.find? (fun t => decide (t.id = uid)) = none := by
      rw [List.find?_eq_none]
      intro t ht
      simpa using hnone t ht
    simp [get_task, h, hfind]

/-- Claim C5 witness: a malformed id is rejected with no query, and a
well-formed but absent id is a 404 after one query. -/
theorem C5_witness :
    get_task parse_fixed [task_todo] "bogus" =
      (Except.error ⟨400, "Invalid task ID"⟩, 0) ∧
    get_task parse_fixed [task_done_old] "t1" =
      (Except.error ⟨404, "Task not found"⟩, 1) :=
  ⟨(C5_get_task_error_split parse_fixed [task_todo] "bogus").1 rfl,
    (C5_get_task_error_split parse_fixed [task_done_old] "t1").2.1 1 rfl
      (by decide)⟩

/-- Claim C6: the task list is exactly the stored tasks matching the
filter — status when truthy (taking precedence over agent), else agent
when truthy, else all — always sorted by priority descending with ties by
created_at descending. -/
theorem C6_list_filter_and_order (status agent_id : Option String)
    (tasks : List Task) :
    (∀ s, status = some s → s ≠ "" →
      List.Perm (get_kanban_tasks status agent_id tasks)
        (tasks.filter fun t => decide (t.status = s)) ∧
      List.Sorted taskLe (get_kanban_tasks status agent_id tasks)) ∧
    ((status = none ∨ status = some "") → ∀ a, agent_id = some a → a ≠ "" →
      List.Perm (get_kanban_tasks status agent_id tasks)
        (tasks.filter fun t => decide (t.agent_id = some a)) ∧
      List.Sorted taskLe (get_kanban_tasks status agent_id tasks)) ∧
    ((status = none ∨ status = some "") →
      (agent_id = none ∨ agent_id = some "") →
      List.Perm (get_kanban_tasks status agent_id tasks) tasks ∧
      List.Sorted taskLe (get_kanban_tasks status agent_id tasks)) := by
  refine ⟨?_, ?_, ?_⟩
  · intro s hs hne
    subst hs
    have htr : truthy (some s) = true := by simp [truthy, hne]
    have hget : get_kanban_tasks (some s) agent_id tasks =
        sortTasks (tasks.filter fun t => decide (some t.status = some s)) := by
      simp [get_kanban_tasks, htr]
    have hfe : (tasks.filter fun t => decide (some t.status = some s)) =
        tasks.filter fun t => decide (t.status = s) := by
      apply List.filter_congr
      intro t _
      simp
    refine ⟨?_, ?_⟩
    · rw [hget, hfe]
      exact List.perm_insertionSort taskLe _
    · rw [hget]
      exact List.sorted_insertionSort taskLe _
  · intro hst a ha hne
    subst ha
    have hst' : truthy status = false := by
      rcases hst with h | h <;> simp [h, truthy]
    have htr : truthy (some a) = true := by simp [truthy, hne]
    have hget : get_kanban_tasks status (some a) tasks =
        sortTasks (tasks.filter fun t => decide (t.agent_id = some a)) := by
      simp [get_kanban_tasks, hst', htr]
    refine ⟨?_, ?_⟩
    · rw [hget]
      exact List.perm_insertionSort taskLe _
    · rw [hget]
      exact List.sorted_insertionSort taskLe _
  · intro hst hag
    have hst' : truthy status = false := by
      rcases hst with h | h <;> simp [h, truthy]
    have hag' : truthy agent_id = false := by
      rcases hag with h | h <;> simp [h, truthy]
    have hget : get_kanban_tasks status agent_id tasks = sortTasks tasks := by
      simp [get_kanban_tasks, hst', hag']
    refine ⟨?_, ?_⟩
    · rw [hget]
      exact List.perm_insertionSort taskLe _
    · rw [hget]
      exact List.sorted_insertionSort taskLe _

/-- Claim C6 witness: the status filter and the unfiltered ordering on a
concrete two-task store. -/
theorem C6_witness :
    List.Perm (get_kanban_tasks (some "todo") none [task_todo, task_done_old])
      ([task_todo, task_done_old].filter fun t => decide (t.status = "todo")) ∧
    List.Sorted taskLe (get_kanban_tasks none none [task_todo, task_done_old]) :=
  ⟨((C6_list_filter_and_order (some "todo") none [task_todo, task_done_old]).1
      "todo" rfl (by decide)).1,
    ((C6_list_filter_and_order none none [task_todo, task_done_old]).2.2
      (Or.inl rfl) (Or.inl rfl)).2⟩

/-- Claim C10: an update whose only supplied field is `completed_at` builds
an empty update set, so the handler rejects it with the empty-update 400
and leaves the store unchanged. -/
theorem C10_completed_at_alone_rejected (parseUUID : String → Option Nat)
    (v : String) (task_id : String) (now : String) (tasks : List Task) :
    update_task parseUUID ⟨none, none, none, none, none, some v⟩ task_id now
      tasks = (Except.error ⟨400, "No fields to update"⟩, tasks) := rfl

theorem apply_column_title (t : Task) (v : String) :
    apply_column t ("title", Value.vStr v) = { t with title := v } := rfl

theorem apply_column_descr (t : Task) (v : String) :
    apply_column t ("description", Value.vStr v) = { t with descr := some v } :=
  rfl

theorem apply_column_status (t : Task) (v : String) :
    apply_column t ("status", Value.vStr v) = { t with status := v } := rfl

theorem apply_column_priority (t : Task) (v : Int) :
    apply_column t ("priority", Value.vInt v) = { t with priority := v } := rfl

theorem apply_column_agent (t : Task) (v : String) :
    apply_column t ("agent_id", Value.vStr v) = { t with agent_id := some v } :=
  rfl

theorem apply_column_completed (t : Task) (v : String) :
    apply_column t ("completed_at", Value.vTime v) =
      { t with completed_at := some v } := rfl

theorem apply_column_updated (t : Task) (v : String) :
    apply_column t ("updated_at", Value.vTime v) = { t with updated_at := v } :=
  rfl

theorem apply_column_completed_at_of_ne (t : Task) (kv : String × Value)
    (h : kv.1 ≠ "completed_at") :
    (apply_column t kv).completed_at = t.completed_at := by
  unfold apply_column
  split <;> simp_all

theorem apply_updates_completed_at_of_not_mem (us : List (String × Value))
    (t : Task) (h : "completed_at" ∉ us.map Prod.fst) :
    (apply_updates t us).completed_at = t.completed_at := by
  induction us generalizing t with
  | nil => rfl
  | cons kv rest ih =>
    simp only [List.map_cons, List.mem_cons, not_or] at h
    show (apply_updates (apply_column t kv) rest).completed_at = t.completed_at
    rw [ih _ h.2, apply_column_completed_at_of_ne t kv fun hh => h.1 hh.symm]

theorem build_updates_no_completed_at (task : TaskUpdate) (now : String)
    (hc : truthy task.completed_at = true) :
    "completed_at" ∉ (build_updates task now).map Prod.fst := by
  rcases task with ⟨ot, od, os, op, oa, oc⟩
  simp only at hc
  cases ot <;> cases od <;> cases os <;> cases op <;> cases oa <;>
    simp_all [build_updates]

/-- Claim C2 (amended): when an update sets status to done and explicitly
supplies a non-empty `completed_at`, the handler skips the automatic
stamp, but the supplied value is not written either: `completed_at` is not
among the assembled update columns and the stored value is unchanged. -/
theorem C2_explicit_completed_at_not_written (task : TaskUpdate)
    (now : String) (t : Task) (v : String) (_hs : task.status = some "done")
    (hc : task.completed_at = some v) (hv : v ≠ "") :
    "completed_at" ∉ (build_updates task now).map Prod.fst ∧
    (apply_updates t (all_updates task now)).completed_at = t.completed_at := by
  have htr : truthy task.completed_at = true := by simp [truthy, hc, hv]
  have hnc := build_updates_no_completed_at task now htr
  refine ⟨hnc, ?_⟩
  apply apply_updates_completed_at_of_not_mem
  simp only [all_updates, List.map_append, List.mem_append, not_or]
  exact ⟨hnc, by simp⟩

/-- Claim C2 counterexample: updating a task with status done and an
explicit `completed_at` of 2020-01-01 leaves the stored `completed_at`
null — the supplied value is not written to the task. -/
theorem C2_counterexample_supplied_value_dropped :
    (update_task parse_fixed req_done_explicit "t1" "2099-01-01T00:00:00"
      [task_todo]).1 =
      Except.ok ⟨1, "Fix bug", none, "done", 5, none, 10,
        "2099-01-01T00:00:00", none⟩ ∧
    (none : Option String) ≠ some "2020-01-01T00:00:00" :=
  ⟨rfl, by decide⟩

/-- Claim C2 witness: the amended theorem applied to the concrete request
that supplies status done with an explicit timestamp. -/
theorem C2_witness :
    "completed_at" ∉
      (build_updates req_done_explicit "2099-01-01T00:00:00").map Prod.fst :=
  (C2_explicit_completed_at_not_written req_done_explicit
    "2099-01-01T00:00:00" task_todo "2020-01-01T00:00:00" rfl rfl
    (by decide)).1

/-- Claim C3 (amended): the handler stamps `completed_at` with the current
time on every update whose request carries status done without a truthy
explicit `completed_at` — it checks only the request, not the stored
status, so an update to an already-done task re-stamps it rather than
stamping exactly once on the transition into done. -/
theorem C3_done_restamps_completed_at (task : TaskUpdate) (now : String)
    (t : Task) (hs : task.status = some "done")
    (hc : truthy task.completed_at = false) :
    ("completed_at", Value.vTime now) ∈ build_updates task now ∧
    (apply_updates t (all_updates task now)).completed_at = some now := by
  rcases task with ⟨ot, od, os, op, oa, oc⟩
  simp only at hs hc
  subst hs
  constructor
  · simp [build_updates, hc]
  · cases ot <;> cases od <;> cases op <;> cases oa <;>
      simp [all_updates, build_updates, hc, apply_updates, apply_column_title,
        apply_column_descr, apply_column_status, apply_column_priority,
        apply_column_agent, apply_column_completed, apply_column_updated]

/-- Claim C3 counterexample: a task already done with `completed_at`
2024-01-01 is updated with status done and no explicit `completed_at`; the
handler re-stamps `completed_at` to the current time, so it is not stamped
exactly once on the transition into done. -/
theorem C3_counterexample_restamp_on_already_done :
    (update_task parse_fixed req_done_again "t2" "2025-06-01T00:00:00"
      [task_done_old]).1 =
      Except.ok ⟨2, "Old task", none, "done", 1, none, 5,
        "2025-06-01T00:00:00", some "2025-06-01T00:00:00"⟩ ∧
    some "2025-06-01T00:00:00" ≠ task_done_old.completed_at :=
  ⟨rfl, by decide⟩

/-- Claim C3 witness: the amended theorem applied to the already-done task
and the repeat done request. -/
theorem C3_witness :
    (apply_updates task_done_old
      (all_updates req_done_again "2025-06-01T00:00:00")).completed_at =
      some "2025-06-01T00:00:00" :=
  (C3_done_restamps_completed_at req_done_again "2025-06-01T00:00:00"
    task_done_old rfl rfl).2

/-- Claim C7 (amended): the payload supplied at append time is stored
opaquely and read back: null in, null out, and any non-empty document out
exactly as given. (The empty document is falsy and is stored as null, see
the counterexample.) -/
theorem C7_payload_round_trip (event_type : String) (data : Option JsonDoc)
    (source : Option String) (event_id : Nat) (now : Nat) :
    get_activity 100 none
        (log_activity event_type data source event_id now []) =
      [⟨event_id, event_type, source, stored_data data, now⟩] ∧
    (data = none → stored_data data = none) ∧
    (∀ d, data = some d → d.entries ≠ [] → stored_data data = some d) := by
  refine ⟨rfl, ?_, ?_⟩
  · intro h
    subst h
    rfl
  · intro d hd hne
    subst hd
    rcases d with ⟨es⟩
    cases es with
    | nil => exact absurd rfl hne
    | cons kv rest => rfl

/-- Claim C7 counterexample: appending with the empty structured payload
stores null, and the read returns null, not the empty document — the empty
payload is not returned verbatim. -/
theorem C7_counterexample_empty_payload_nulled :
    get_activity 100 none (log_activity "evt" (some ⟨[]⟩) none 7 5 []) =
      [⟨7, "evt", none, none, 5⟩] ∧
    (⟨7, "evt", none, none, 5⟩ : ActivityEvent).data ≠ some ⟨[]⟩ := by
  constructor <;> decide

/-- Claim C7 witness: a concrete non-empty document is stored verbatim. -/
theorem C7_witness :
    stored_data (some ⟨[("k", "v")]⟩) = some ⟨[("k", "v")]⟩ :=
  (C7_payload_round_trip "evt" (some ⟨[("k", "v")]⟩) none 1 1).2.2
    ⟨[("k", "v")]⟩ rfl (by decide)

theorem partitionChars_append (pre t : List Char) (h : ' ' ∉ pre) :
    partitionChars (pre ++ ' ' :: t) = (pre, t) := by
  induction pre with
  | nil => simp [partitionChars]
  | cons c cs ih =>
    simp only [List.mem_cons, not_or] at h
    simp only [List.cons_append, partitionChars]
    rw [if_neg fun hc => h.1 hc.symm]
    simp [ih h.2]

theorem partitionSpace_bearer (t : String) :
    partitionSpace ("Bearer " ++ t) = ("Bearer", t) := by
  have hd : ("Bearer " ++ t).data =
      ['B', 'e', 'a', 'r', 'e', 'r'] ++ (' ' :: t.data) := by
    rw [String.data_append]
    rfl
  show (String.mk (partitionChars ("Bearer " ++ t).data).1,
      String.mk (partitionChars ("Bearer " ++ t).data).2) = ("Bearer", t)
  rw [hd, partitionChars_append _ _ (by decide)]

theorem bearer_append_ne_empty (t : String) : "Bearer " ++ t ≠ "" := by
  intro h
  have hb : ("Bearer " ++ t).data.head? = some 'B' := by
    rw [String.data_append]
    rfl
  rw [h] at hb
  exact absurd hb (by decide)

/-- Claim C8: with a configured token, a missing or empty header is 401, a
non-bearer scheme is 401, a bearer token different from the configured one
is 403, and the exact configured token passes; with an empty configured
token every request passes; a failing check makes the gated handler return
the same error. -/
theorem C8_bearer_token_gate (TOKEN : String) (authorization : Option String) :
    (TOKEN = "" → verify_token TOKEN authorization = Except.ok ()) ∧
    (TOKEN ≠ "" → authorization = none ∨ authorization = some "" →
      verify_token TOKEN authorization =
        Except.error ⟨401, "Missing authorization header"⟩) ∧
    (TOKEN ≠ "" → ∀ a, authorization = some a → a ≠ "" →
      lower_string (partitionSpace a).1 ≠ "bearer" →
      verify_token TOKEN authorization =
        Except.error ⟨401, "Invalid authorization scheme"⟩) ∧
    (TOKEN ≠ "" → ∀ t, t ≠ TOKEN →
      verify_token TOKEN (some ("Bearer " ++ t)) =
        Except.error ⟨403, "Invalid token"⟩) ∧
    (TOKEN ≠ "" →
      verify_token TOKEN (some ("Bearer " ++ TOKEN)) = Except.ok ()) ∧
    (∀ status agent_id tasks e,
      verify_token TOKEN authorization = Except.error e →
      get_kanban TOKEN authorization status agent_id tasks = Except.error e) := by
  have hlow : lower_string "Bearer" = "bearer" := by decide
  refine ⟨?_, ?_, ?_, ?_, ?_, ?_⟩
  · intro h
    simp [verify_token, h]
  · intro hT h
    rcases h with h | h <;> simp [verify_token, hT, h]
  · intro hT a ha hne hsch
    subst ha
    simp [verify_token, hT, hne, hsch]
  · intro hT t ht
    simp [verify_token, hT, bearer_append_ne_empty t, partitionSpace_bearer,
      hlow, ht]
  · intro hT
    simp [verify_token, hT, bearer_append_ne_empty TOKEN,
      partitionSpace_bearer, hlow]
  · intro status agent_id tasks e he
    simp [get_kanban, he]

/-- Claim C8 witness: the gate at a concrete configured token, covering
open mode, missing header, wrong scheme, wrong token and exact token. -/
theorem C8_witness :
    verify_token "" none = Except.ok () ∧
    verify_token "secret" none =
      Except.error ⟨401, "Missing authorization header"⟩ ∧
    verify_token "secret" (some "Basic abc") =
      Except.error ⟨401, "Invalid authorization scheme"⟩ ∧
    verify_token "secret" (some ("Bearer " ++ "wrong")) =
      Except.error ⟨403, "Invalid token"⟩ ∧
    verify_token "secret" (some ("Bearer " ++ "secret")) = Except.ok () :=
  ⟨(C8_bearer_token_gate "" none).1 rfl,
    (C8_bearer_token_gate "secret" none).2.1 (by decide) (Or.inl rfl),
    (C8_bearer_token_gate "secret" (some "Basic abc")).2.2.1 (by decide)
      "Basic abc" rfl (by decide) (by decide),
    (C8_bearer_token_gate "secret" none).2.2.2.1 (by decide) "wrong"
      (by decide),
    (C8_bearer_token_gate "secret" none).2.2.2.2.1 (by decide)⟩

theorem clause_entries_eq_cols (us : List (String × Value)) (n : Nat) :
    clause_entries n us = clause_entries_cols n (us.map Prod.fst) := by
  induction us generalizing n with
  | nil => rfl
  | cons kv rest ih =>
    obtain ⟨k, v⟩ := kv
    simp [clause_entries, clause_entries_cols, ih]

theorem build_updates_cols (task : TaskUpdate) (now : String) :
    ∀ c ∈ (build_updates task now).map Prod.fst, c ∈ updatable_columns := by
  rcases task with ⟨ot, od, os, op, oa, oc⟩
  intro c hc
  cases ot <;> cases od <;> cases os <;> cases op <;> cases oa <;>
    (try simp_all [build_updates, updatable_columns]) <;> tauto

/-- Claim C9: the column names assembled into the UPDATE statement are
drawn only from the fixed compile-time list, the statement text is a
function of the column names alone (no value reaches the text), and every
value — the task id first — is passed as a bound parameter. -/
theorem C9_update_statement_fixed_columns (task : TaskUpdate) (now : String)
    (uid : Nat) :
    ((all_updates task now).map Prod.fst) ⊆ updatable_columns ∧
    (update_statement (all_updates task now) uid).1 =
      text_of_columns ((all_updates task now).map Prod.fst) ∧
    (update_statement (all_updates task now) uid).2 =
      Value.vId uid :: (all_updates task now).map Prod.snd := by
  refine ⟨?_, ?_, rfl⟩
  · intro c hc
    simp only [all_updates, List.map_append, List.mem_append] at hc
    rcases hc with h | h
    · exact build_updates_cols task now c h
    · simp only [List.map_cons, List.map_nil, List.mem_singleton] at h
      subst h
      simp [updatable_columns]
  · simp [update_statement, text_of_columns, clause_entries_eq_cols]

/-- Claim C9 witness: the fixed-column subset applied to a concrete
request whose update set names the status column. -/
theorem C9_witness : ("status" : String) ∈ updatable_columns :=
  (C9_update_statement_fixed_columns req_done_again "2025-06-01T00:00:00"
      2).1
    (show "status" ∈ (all_updates req_done_again
      "2025-06-01T00:00:00").map Prod.fst by decide)

end MissionControl
